import Mathlib

/-!
Shallow embedding of the Zephyr-derived GSM PPP modem driver
(drivers/modem/gsm_ppp.c) and proofs about its configuration setters,
response handlers, mux bring-up state machine, connection supervisor and
control operations.

Conventions of the embedding:
- C int return codes are Lean Int values; 0 is success, negative errno
  values are kept literally (EINVAL = 22, EEXIST = 17, so the code returns
  -22 and -17).
- Static C buffers holding NUL-terminated text are modelled as Lean
  strings or lists of characters holding the text up to (excluding) the
  terminator; bounded copies (strncpy, net_buf_linearize with a size
  argument) become List.take / String.take with the same bound.
- Functions with side effects (scheduling deferred work, toggling UART
  interrupts, sending commands) return explicit records of the effects
  they perform; collaborators external to this file (the command
  correlator, the uart mux, the network interface layer) are represented
  by oracle inputs giving the result each collaborator call would return.
-/

/-- Buffer bounds from gsm_ppp.c. MDM_APN_LENGTH is the size of the
mdm_apn buffer; MDM_MCCMNC_LENGTH the size of mdm_mccmnc;
MDM_IMEI_LENGTH the size of mdm_imei. -/
def MDM_APN_LENGTH : Nat := 100

def MDM_MCCMNC_LENGTH : Nat := 7

def MDM_IMEI_LENGTH : Nat := 16

/-- The persistent state touched by gsm_set_apn: the static apn_set flag,
the minfo.mdm_apn buffer and the cgdcont_cmd command buffer. -/
structure ApnState where
  apn_set : Bool
  mdm_apn : String
  cgdcont_cmd : String
deriving Repr, DecidableEq

/-- Embedding of gsm_set_apn (gsm_ppp.c lines 165-188).
len = strnlen(apn, MDM_APN_LENGTH) caps the measured length at 100;
len == 100 fails with -EINVAL; len == 0 succeeds as a no-op; a set flag
fails with -EEXIST; otherwise the flag is set, the APN is copied into
minfo.mdm_apn and the PDP context command is formatted into
cgdcont_cmd. -/
def gsm_set_apn (apn : String) (s : ApnState) : Int × ApnState :=
  let len := min apn.length MDM_APN_LENGTH
  if len = MDM_APN_LENGTH then
    (-22, s)
  else if len = 0 then
    (0, s)
  else if s.apn_set then
    (-17, s)
  else
    (0, { apn_set := true
          mdm_apn := apn
          cgdcont_cmd := "AT+CGDCONT=1,\"IP\",\"" ++ apn ++ "\"" })

/-- Embedding of gsm_set_volume (gsm_ppp.c lines 154-163). The argument
is the value of the uint8_t parameter; clvl is the current contents of
the static clvl_cmd buffer, returned unchanged on error. -/
def gsm_set_volume (volume : Nat) (clvl : String) : Int × String :=
  if volume > 5 then
    (-22, clvl)
  else
    (0, "AT+CLVL=" ++ toString volume)

/-- Claim C3: the APN setter returns success as a no-op on the empty
string (even when the flag is already set), returns -EINVAL
(ConfigurationError) when the input length reaches the 100-byte bound,
returns -EEXIST (AlreadySet) for a nonempty in-bound input after an APN
was committed, and otherwise commits the value, marks the APN set and
formats the PDP-context command AT+CGDCONT=1,"IP","<apn>". -/
theorem gsm_set_apn_contract (apn : String) (s : ApnState) :
    (MDM_APN_LENGTH ≤ apn.length → gsm_set_apn apn s = (-22, s)) ∧
    (apn.length = 0 → gsm_set_apn apn s = (0, s)) ∧
    (0 < apn.length → apn.length < MDM_APN_LENGTH → s.apn_set = true →
      gsm_set_apn apn s = (-17, s)) ∧
    (0 < apn.length → apn.length < MDM_APN_LENGTH → s.apn_set = false →
      gsm_set_apn apn s =
        (0, { apn_set := true
              mdm_apn := apn
              cgdcont_cmd := "AT+CGDCONT=1,\"IP\",\"" ++ apn ++ "\"" })) := by
  refine ⟨?_, ?_, ?_, ?_⟩
  · intro hlen
    have hmin : min apn.length MDM_APN_LENGTH = MDM_APN_LENGTH :=
      Nat.min_eq_right hlen
    simp [gsm_set_apn, hmin]
  · intro hlen
    simp [gsm_set_apn, hlen, MDM_APN_LENGTH]
  · intro hpos hlt hset
    have hmin : min apn.length MDM_APN_LENGTH = apn.length :=
      Nat.min_eq_left (Nat.le_of_lt hlt)
    simp [gsm_set_apn, hmin, Nat.ne_of_lt hlt, Nat.pos_iff_ne_zero.mp hpos, hset]
  · intro hpos hlt hset
    have hmin : min apn.length MDM_APN_LENGTH = apn.length :=
      Nat.min_eq_left (Nat.le_of_lt hlt)
    simp [gsm_set_apn, hmin, Nat.ne_of_lt hlt, Nat.pos_iff_ne_zero.mp hpos, hset]

/-- Witness for C3: the four branches of the contract at concrete
inputs. -/
theorem gsm_set_apn_contract_witness :
    gsm_set_apn (String.mk (List.replicate 100 'a')) ⟨false, "", ""⟩ =
      (-22, ⟨false, "", ""⟩) ∧
    gsm_set_apn "" ⟨true, "internet", "AT+CGDCONT=1,\"IP\",\"internet\""⟩ =
      (0, ⟨true, "internet", "AT+CGDCONT=1,\"IP\",\"internet\""⟩) ∧
    gsm_set_apn "other" ⟨true, "internet", "AT+CGDCONT=1,\"IP\",\"internet\""⟩ =
      (-17, ⟨true, "internet", "AT+CGDCONT=1,\"IP\",\"internet\""⟩) ∧
    gsm_set_apn "internet" ⟨false, "", ""⟩ =
      (0, ⟨true, "internet", "AT+CGDCONT=1,\"IP\",\"internet\""⟩) := by
  refine ⟨?_, ?_, ?_, ?_⟩
  · exact (gsm_set_apn_contract _ _).1 (by decide)
  · exact (gsm_set_apn_contract _ _).2.1 (by decide)
  · exact (gsm_set_apn_contract _ _).2.2.1 (by decide) (by decide) rfl
  · exact (gsm_set_apn_contract _ _).2.2.2 (by decide) (by decide) rfl

/-- Claim C5: the volume setter formats AT+CLVL=<level> and succeeds for
every level 0 through 5; for every level above 5 it returns -EINVAL and
leaves the previously formatted command unchanged. -/
theorem gsm_set_volume_contract (volume : Nat) (clvl : String) :
    (volume ≤ 5 →
      gsm_set_volume volume clvl = (0, "AT+CLVL=" ++ toString volume)) ∧
    (5 < volume → gsm_set_volume volume clvl = (-22, clvl)) := by
  constructor
  · intro h
    simp [gsm_set_volume, Nat.not_lt.mpr h]
  · intro h
    simp [gsm_set_volume, h]

/-- Witness for C5: both branches at concrete levels. -/
theorem gsm_set_volume_contract_witness :
    gsm_set_volume 3 "AT+CLVL=0" = (0, "AT+CLVL=3") ∧
    gsm_set_volume 6 "AT+CLVL=3" = (-22, "AT+CLVL=3") :=
  ⟨(gsm_set_volume_contract 3 "AT+CLVL=0").1 (by decide),
   (gsm_set_volume_contract 6 "AT+CLVL=3").2 (by decide)⟩

/-- The bring-up states of gsm_ppp.c (enum setup_state). STATE_INIT and
STATE_CONTROL_CHANNEL are both 0 in the source, so the initial value and
the control-channel state coincide: control is the initial state. -/
inductive SetupState where
  | control
  | pppChannel
  | atChannel
  | done
deriving Repr, DecidableEq

/-- The bring-up related fields of struct gsm_modem touched by
mux_setup: the state, the mux_enabled flag and the three channel device
handles (channel handles are abstract Nat identifiers; none models a
NULL device pointer). -/
structure MuxState where
  state : SetupState
  mux_enabled : Bool
  control_dev : Option Nat
  ppp_dev : Option Nat
  at_dev : Option Nat
deriving Repr, DecidableEq

/-- Oracle inputs for one invocation of mux_setup: the result of
uart_mux_alloc (none when the mux collaborator has no free channel), the
return value of mux_attach, the return value of
modem_iface_uart_init_dev in the done state, and whether
gsm_finalize_connection completes without rescheduling itself. -/
structure MuxStepIn where
  alloc : Option Nat
  attachRet : Int
  ifaceInitRet : Int
  finalizeOk : Bool
deriving Repr, DecidableEq

/-- Observable effects of one invocation of mux_setup: the updated
session fields, whether gsm_finalize_connection was entered, and whether
another invocation of the work handler was scheduled (by the attach
completion callback after a successful mux_attach, or by the reschedule
inside a failing gsm_finalize_connection). -/
structure MuxStepOut where
  st : MuxState
  finalize : Bool
  resched : Bool
deriving Repr, DecidableEq

/-- The fail label of mux_setup (gsm_ppp.c lines 666-668): reset state to
STATE_INIT (which equals the control state) and clear mux_enabled; the
function then returns without scheduling anything. -/
def mux_setup_fail (g : MuxState) : MuxStepOut :=
  ⟨{ g with state := .control, mux_enabled := false }, false, false⟩

/-- Embedding of mux_setup (gsm_ppp.c lines 584-669). In each channel
state the channel is allocated (goto fail on NULL), the state is
advanced, and mux_attach is called (goto fail on negative return). A
successful attach leads to the completion callback scheduling the next
invocation, modelled by resched := true. In the done state the PPP
channel is bound to the command interface (on failure mux_enabled is
cleared and the fail label runs) and gsm_finalize_connection is called;
a finalize that failed internally reschedules the work item. -/
def mux_setup (g : MuxState) (i : MuxStepIn) : MuxStepOut :=
  match g.state with
  | .control =>
    match i.alloc with
    | none => mux_setup_fail g
    | some d =>
      let g1 := { g with control_dev := some d, state := .pppChannel }
      if i.attachRet < 0 then mux_setup_fail g1
      else ⟨g1, false, true⟩
  | .pppChannel =>
    match i.alloc with
    | none => mux_setup_fail g
    | some d =>
      let g1 := { g with ppp_dev := some d, state := .atChannel }
      if i.attachRet < 0 then mux_setup_fail g1
      else ⟨g1, false, true⟩
  | .atChannel =>
    match i.alloc with
    | none => mux_setup_fail g
    | some d =>
      let g1 := { g with at_dev := some d, state := .done }
      if i.attachRet < 0 then mux_setup_fail g1
      else ⟨g1, false, true⟩
  | .done =>
    if i.ifaceInitRet < 0 then
      mux_setup_fail { g with mux_enabled := false }
    else
      ⟨g, true, !i.finalizeOk⟩

/-- Claim C2: in every channel bring-up state, both failure modes of the
step (allocation returning no channel, attach returning a negative
code) reset the state to the initial value, clear mux_enabled, do not
enter finalization and schedule no retry of the step. -/
theorem mux_setup_failure_resets (g : MuxState) (i : MuxStepIn)
    (hst : g.state = .control ∨ g.state = .pppChannel ∨ g.state = .atChannel)
    (hfail : i.alloc = none ∨ i.attachRet < 0) :
    (mux_setup g i).st.state = .control ∧
    (mux_setup g i).st.mux_enabled = false ∧
    (mux_setup g i).finalize = false ∧
    (mux_setup g i).resched = false := by
  rcases hfail with halloc | hatt
  · rcases hst with h | h | h <;>
      simp [mux_setup, h, halloc, mux_setup_fail]
  · rcases hst with h | h | h <;>
      rcases halloc : i.alloc with _ | d <;>
      simp [mux_setup, h, halloc, hatt, mux_setup_fail]

/-- Witness for C2: an attach failure in the PPP-channel state resets the
machine. -/
theorem mux_setup_failure_resets_witness :
    (mux_setup ⟨.pppChannel, true, some 0, none, none⟩
        ⟨some 1, -5, 0, true⟩).st.state = .control ∧
    (mux_setup ⟨.pppChannel, true, some 0, none, none⟩
        ⟨some 1, -5, 0, true⟩).st.mux_enabled = false ∧
    (mux_setup ⟨.pppChannel, true, some 0, none, none⟩
        ⟨some 1, -5, 0, true⟩).finalize = false ∧
    (mux_setup ⟨.pppChannel, true, some 0, none, none⟩
        ⟨some 1, -5, 0, true⟩).resched = false :=
  mux_setup_failure_resets _ _ (Or.inr (Or.inl rfl)) (Or.inr (by decide))

/-- Driver for a bring-up run: invoke mux_setup with the k-th oracle
input, record the state the invocation entered in and whether it called
finalization, and continue exactly when the invocation scheduled a next
step. Fuel bounds the run length. -/
def muxRun : Nat → MuxState → (Nat → MuxStepIn) → Nat → List (SetupState × Bool)
  | 0, _, _, _ => []
  | n + 1, g, ins, k =>
    let o := mux_setup g (ins k)
    (g.state, o.finalize) ::
      (if o.resched then muxRun n o.st ins (k + 1) else [])

/-- Oracle in which every allocation and every attach succeeds and
finalization completes. -/
def muxAllSuccess : Nat → MuxStepIn := fun _ => ⟨some 0, 0, 0, true⟩

/-- The session state at the start of a bring-up run: gsm_configure sets
state := STATE_INIT and mux_enabled := true before the first mux_setup
invocation; no channels are held. -/
def muxInitState : MuxState := ⟨.control, true, none, none, none⟩

/-- Claim C4: with every allocation and attach succeeding, a bring-up run
(any fuel of at least 4) visits control, pppChannel, atChannel, done
exactly once each, in that order, and finalization runs exactly once, at
the done state. -/
theorem muxRun_all_success (n : Nat) :
    muxRun (n + 4) muxInitState muxAllSuccess 0 =
      [(.control, false), (.pppChannel, false), (.atChannel, false),
       (.done, true)] := by
  show muxRun (n + 1 + 1 + 1 + 1) _ _ _ = _
  simp [muxRun, mux_setup, muxAllSuccess, muxInitState]

/-- Effects of the attach completion callback mux_attach_cb (gsm_ppp.c
lines 556-568): whether interrupt-driven receive and transmit were
enabled on the channel, and the delay of the deferred work submission
performed by mux_setup_next. -/
structure AttachCbOut where
  rxIrqEnabled : Bool
  txIrqEnabled : Bool
  scheduled : Bool
  schedDelayMs : Nat
deriving Repr, DecidableEq

/-- Embedding of mux_attach_cb together with mux_setup_next: interrupts
are enabled only when connected is true, and the next state-machine step
is scheduled unconditionally with a 1 ms delay; the session state is not
modified. -/
def mux_attach_cb (g : MuxState) (connected : Bool) :
    MuxState × AttachCbOut :=
  (g, ⟨connected, connected, true, 1⟩)

/-- Claim C9: every attach completion callback schedules the next
state-machine step via a 1 ms deferred work submission whether the
channel is reported connected or not; only a connected completion
enables interrupt-driven receive and transmit; the session state is left
unchanged, so a disconnected completion advances the bring-up (the state
was already advanced before the attach) rather than resetting it. -/
theorem mux_attach_cb_schedules (g : MuxState) (connected : Bool) :
    (mux_attach_cb g connected).1 = g ∧
    (mux_attach_cb g connected).2.scheduled = true ∧
    (mux_attach_cb g connected).2.schedDelayMs = 1 ∧
    (mux_attach_cb g connected).2.rxIrqEnabled = connected ∧
    (mux_attach_cb g connected).2.txIrqEnabled = connected := by
  simp [mux_attach_cb]

/-- The tail of a character list starting at the last occurrence of c,
mirroring C strrchr: none when c does not occur (strrchr returns
NULL). -/
def strrchrSuffix : List Char → Char → Option (List Char)
  | [], _ => none
  | a :: rest, c =>
    match strrchrSuffix rest c with
    | some s => some s
    | none => if a = c then some (a :: rest) else none

/-- Result of the network-info response handler: the value stored into
minfo.mdm_mccmnc, the argument passed to apn_lookup, and the APN state
after the conditional gsm_set_apn call. none models the undefined
behaviour the C handler has when the line holds no comma (strrchr
returns NULL and the code dereferences NULL + 2) or when nothing
follows the comma-plus-quote prefix (the code then indexes the string
at position -1). -/
structure NetinfoOut where
  mccmnc : List Char
  lookupArg : List Char
  apnAfter : ApnState
deriving Repr, DecidableEq

/-- Embedding of on_cmd_atcmdinfo_networkinfo (gsm_ppp.c lines 201-225).
The received line is linearized into a 100-byte buffer (at most 99
characters kept), substr = strrchr(temp, comma) is advanced by 2 to skip
the comma and the opening quote, its last character (the closing quote)
is cut, and the result is copied into mdm_mccmnc with
strncpy(.., MDM_MCCMNC_LENGTH), so at most 7 characters are kept. Then
apn_lookup runs on the stored code; lookupTable models the static APN
table of gsm_apn.h (external data, out of scope of the source file): it
returns the APN for codes it maps; on a hit gsm_set_apn is called with
the found APN. -/
def on_cmd_atcmdinfo_networkinfo (lookupTable : List Char → Option String)
    (line : List Char) (apnSt : ApnState) : Option NetinfoOut :=
  let temp := line.take 99
  match strrchrSuffix temp ',' with
  | none => none
  | some s =>
    let s1 := s.drop 2
    if s1 = [] then none
    else
      let stored := s1.dropLast.take MDM_MCCMNC_LENGTH
      let after :=
        match lookupTable stored with
        | some apn => (gsm_set_apn apn apnSt).2
        | none => apnSt
      some ⟨stored, stored, after⟩

/-- Counterexample for C1: a network-info reply line ending in
,"310","410" does not make the handler store "310410"; the last
comma-delimited field is "410" and that is what is stored and looked
up, for any table and any APN state (shown here at the empty table and
a fresh APN state). -/
theorem networkinfo_310_410_not_310410 :
    (on_cmd_atcmdinfo_networkinfo (fun _ => none)
        (String.toList "+QSPN: \"Operator\",\"Op\",\"\",0,\"310\",\"410\"")
        ⟨false, "", ""⟩).map NetinfoOut.mccmnc =
      some (String.toList "410") ∧
    some (String.toList "410") ≠ some (String.toList "310410") := by
  constructor
  · rfl
  · decide

/-- Claim C1 (amended): the handler parses the last comma-delimited field
of the line as the MCC-MNC code: for every line of the form
p ++ "," ++ quote ++ code ++ quote whose tail field code holds no comma,
fits the 6-character MCC-MNC bound and whose line fits the 99-byte
linearization bound, the handler stores exactly code (so a line ending
in ,"310","410" stores "410", not "310410") and performs the APN table
lookup on the stored code. -/
theorem networkinfo_stores_last_field
    (lookupTable : List Char → Option String) (apnSt : ApnState)
    (p code : List Char) (hnc : ',' ∉ code) (hlen : code.length ≤ 6)
    (hline : (p ++ ',' :: '"' :: (code ++ ['"'])).length ≤ 99) :
    on_cmd_atcmdinfo_networkinfo lookupTable
        (p ++ ',' :: '"' :: (code ++ ['"'])) apnSt =
      some ⟨code, code,
        match lookupTable code with
        | some apn => (gsm_set_apn apn apnSt).2
        | none => apnSt⟩ := by
  have hnone : ∀ l : List Char, ',' ∉ l → strrchrSuffix l ',' = none := by
    intro l
    induction l with
    | nil => intro _; rfl
    | cons a rest ih =>
      intro h
      have ha : ¬ a = ',' := fun hac => h (hac ▸ List.mem_cons_self a rest)
      have hr : ',' ∉ rest := fun hm => h (List.mem_cons_of_mem a hm)
      simp [strrchrSuffix, ih hr, ha]
  have hsuffix : ∀ q : List Char,
      strrchrSuffix (q ++ ',' :: '"' :: (code ++ ['"'])) ',' =
        some (',' :: '"' :: (code ++ ['"'])) := by
    intro q
    induction q with
    | nil =>
      have htail2 : ',' ∉ (code ++ ['"']) := by
        intro h
        rcases List.mem_append.mp h with h3 | h4
        · exact hnc h3
        · exact absurd (List.mem_singleton.mp h4).symm (by decide)
      simp [strrchrSuffix, hnone _ htail2,
        (by decide : ('"' : Char) ≠ ',')]
    | cons a q ih =>
      simp [strrchrSuffix, ih]
  have htake : (p ++ ',' :: '"' :: (code ++ ['"'])).take 99 =
      p ++ ',' :: '"' :: (code ++ ['"']) :=
    List.take_of_length_le hline
  have hdrop : (',' :: '"' :: (code ++ ['"'])).drop 2 = code ++ ['"'] := rfl
  have hne : ¬ (code ++ ['"'] = ([] : List Char)) := by simp
  have hdl : (code ++ ['"']).dropLast = code := List.dropLast_concat
  have htk : code.take MDM_MCCMNC_LENGTH = code :=
    List.take_of_length_le
      (Nat.le_trans hlen (by norm_num [MDM_MCCMNC_LENGTH]))
  simp only [on_cmd_atcmdinfo_networkinfo, htake, hsuffix, hdrop,
    if_neg hne, hdl, htk]

/-- Witness for C1 (amended): the concrete reply ending in ,"310","410"
stores and looks up "410". -/
theorem networkinfo_stores_last_field_witness :
    on_cmd_atcmdinfo_networkinfo (fun _ => none)
        ((String.toList "+QSPN: \"Operator\",\"Op\",\"\",0,\"310\",") ++
          ',' :: '"' :: ((String.toList "410") ++ ['"']))
        ⟨false, "", ""⟩ =
      some ⟨String.toList "410", String.toList "410", ⟨false, "", ""⟩⟩ := by
  have h := networkinfo_stores_last_field (fun _ => none) ⟨false, "", ""⟩
    (String.toList "+QSPN: \"Operator\",\"Op\",\"\",0,\"310\",")
    (String.toList "410") (by decide) (by decide) (by decide)
  exact h

/-- Oracle inputs for one invocation of gsm_finalize_connection: whether
mux support is compiled in (IS_ENABLED(CONFIG_GSM_MUX)) and the
mux_enabled flag, then the return codes of each collaborator call in
order: the post-mux AT probe, the AT+COPS exchange (checked but its
result is discarded by the caller), the setup command sequence, the
AT+CGATT? packet-attach query, the ATD*99# dial sequence, and the two
trailing AT-channel steps whose results are only logged. -/
structure FinalizeIn where
  cfgMux : Bool
  mux_enabled : Bool
  probeRet : Int
  mccmnoRet : Int
  setupRet : Int
  attachRet : Int
  dialRet : Int
  atIfaceRet : Int
  atProbeRet : Int
deriving Repr, DecidableEq

/-- Effects of a completed gsm_finalize_connection: setup_done is set,
the carrier is activated via set_ppp_carrier_on, and when muxing is
active the AT channel is re-bound to the command interface. -/
structure FinalizeDone where
  setup_done : Bool
  carrierOn : Bool
  atReattach : Bool
deriving Repr, DecidableEq

/-- Outcome of one invocation of gsm_finalize_connection. The C function
returns void: it either reschedules itself (resched, with the delay of
the k_delayed_work_submit call in seconds) or runs to completion; no
error value is ever produced for a caller. -/
inductive FinalizeOut where
  | resched (delaySeconds : Nat)
  | completed (d : FinalizeDone)
deriving Repr, DecidableEq

/-- Embedding of gsm_finalize_connection (gsm_ppp.c lines 405-505). Each
failing step (the post-mux AT probe when muxing is active, the setup
command sequence, the packet-attach query, the dial sequence)
resubmits gsm_configure_work with a one-second delay and returns; the
AT+COPS result is cast to void and ignored; the trailing AT-channel
re-bind and verification probe only log their results. -/
def gsm_finalize_connection (i : FinalizeIn) : FinalizeOut :=
  if i.cfgMux ∧ i.mux_enabled ∧ i.probeRet < 0 then .resched 1
  else if i.setupRet < 0 then .resched 1
  else if i.attachRet < 0 then .resched 1
  else if i.dialRet < 0 then .resched 1
  else .completed ⟨true, true, i.cfgMux ∧ i.mux_enabled⟩

/-- The supervisor retry loop around gsm_finalize_connection: the routine
runs again exactly when the previous invocation rescheduled itself;
fuel bounds the observed prefix of the run. -/
def finalizeLoop : Nat → FinalizeIn → List FinalizeOut
  | 0, _ => []
  | n + 1, i =>
    match gsm_finalize_connection i with
    | .resched d => .resched d :: finalizeLoop n i
    | .completed d => [.completed d]

/-- Claim C6: whenever any step of the finalize routine fails or times
out (post-mux AT probe with muxing active, setup command sequence,
packet-attach query, or dial command), the routine reschedules itself
after the fixed one-second backoff; nothing but the reschedule is
produced, so no error reaches an external caller; and the retry loop
reschedules again on every one of any number of repeated failures, with
no retry-count ceiling. -/
theorem gsm_finalize_connection_retries (i : FinalizeIn)
    (hfail : (i.cfgMux ∧ i.mux_enabled ∧ i.probeRet < 0) ∨
      i.setupRet < 0 ∨ i.attachRet < 0 ∨ i.dialRet < 0) :
    gsm_finalize_connection i = .resched 1 ∧
    ∀ n : Nat, finalizeLoop n i = List.replicate n (.resched 1) := by
  have hone : gsm_finalize_connection i = .resched 1 := by
    rcases hfail with h | h | h | h
    · simp [gsm_finalize_connection, h]
    · rcases Decidable.em (i.cfgMux ∧ i.mux_enabled ∧ i.probeRet < 0)
        with hp | hp <;> simp [gsm_finalize_connection, hp, h]
    · rcases Decidable.em (i.cfgMux ∧ i.mux_enabled ∧ i.probeRet < 0)
        with hp | hp <;>
      rcases Decidable.em (i.setupRet < 0) with hs | hs <;>
        simp [gsm_finalize_connection, hp, hs, h]
    · rcases Decidable.em (i.cfgMux ∧ i.mux_enabled ∧ i.probeRet < 0)
        with hp | hp <;>
      rcases Decidable.em (i.setupRet < 0) with hs | hs <;>
      rcases Decidable.em (i.attachRet < 0) with ha | ha <;>
        simp [gsm_finalize_connection, hp, hs, ha, h]
  refine ⟨hone, ?_⟩
  intro n
  induction n with
  | zero => rfl
  | succ m ih => simp [finalizeLoop, hone, ih, List.replicate_succ]

/-- Witness for C6: a timed-out packet-attach query reschedules, and
three successive such failures give three reschedules. -/
theorem gsm_finalize_connection_retries_witness :
    gsm_finalize_connection ⟨true, true, 0, 0, 0, -11, 0, 0, 0⟩ =
      .resched 1 ∧
    finalizeLoop 3 ⟨true, true, 0, 0, 0, -11, 0, 0, 0⟩ =
      List.replicate 3 (.resched 1) :=
  ⟨(gsm_finalize_connection_retries _
      (Or.inr (Or.inr (Or.inl (by decide))))).1,
   (gsm_finalize_connection_retries _
      (Or.inr (Or.inr (Or.inl (by decide))))).2 3⟩

/-- One command exchange as seen on the wire: the command text and the
end-of-line terminator in force while it was sent. -/
structure SendEvent where
  cmd : String
  eol : String
deriving Repr, DecidableEq

/-- Effects of gsm_ppp_stop: whether the network interface was disabled,
the exchanges performed with the terminator each used, the terminator
left in cmd_handler_data.eol afterwards, and the returned code. -/
structure StopOut where
  ifaceDisabled : Bool
  sends : List SendEvent
  finalEol : String
  ret : Int
deriving Repr, DecidableEq

/-- Embedding of gsm_ppp_stop (gsm_ppp.c lines 765-791). eol0 is the
terminator in force on entry; ifaceInitRet and escapeRet are the return
codes of modem_iface_uart_init_dev and of the escape exchange. The
interface is disabled first; a failing re-init returns its code before
any exchange; otherwise eol is set to the empty string, the escape
sequence is sent, eol is restored to carriage return unconditionally,
and the escape exchange result is returned. -/
def gsm_ppp_stop (eol0 : String) (ifaceInitRet escapeRet : Int) : StopOut :=
  if ifaceInitRet < 0 then ⟨true, [], eol0, ifaceInitRet⟩
  else ⟨true, [⟨"+++", ""⟩], "\r", escapeRet⟩

/-- Claim C7: every stop invocation that reaches the escape exchange
(the transport re-init did not fail) sends exactly one exchange, the
escape sequence with the empty terminator, restores the carriage-return
terminator afterwards whatever code the exchange returned, and returns
the escape exchange result. -/
theorem gsm_ppp_stop_escape (eol0 : String) (ifaceInitRet escapeRet : Int)
    (hok : 0 ≤ ifaceInitRet) :
    gsm_ppp_stop eol0 ifaceInitRet escapeRet =
      ⟨true, [⟨"+++", ""⟩], "\r", escapeRet⟩ := by
  simp [gsm_ppp_stop, Int.not_lt.mpr hok]

/-- Witness for C7: a timed-out escape exchange (code -11) still leaves
the carriage-return terminator restored and is returned to the
caller. -/
theorem gsm_ppp_stop_escape_witness :
    gsm_ppp_stop "\r" 0 (-11) = ⟨true, [⟨"+++", ""⟩], "\r", -11⟩ :=
  gsm_ppp_stop_escape "\r" 0 (-11) (by decide)

/-- Which primitive of the network-interface layer one carrier
activation invoked. -/
inductive CarrierCall where
  | start
  | enable
  | skipped
deriving Repr, DecidableEq

/-- Embedding of set_ppp_carrier_on (gsm_ppp.c lines 375-403). The
static api pointer is modelled by the Bool api_set; devPresent models
device_get_binding finding the PPP device. A missing device returns
without touching api; the first call that reaches the api check sets
api and calls the start primitive; all later calls use the enable
primitive. -/
def set_ppp_carrier_on (devPresent : Bool) (api_set : Bool) :
    Bool × CarrierCall :=
  if !devPresent then (api_set, .skipped)
  else if !api_set then (true, .start)
  else (api_set, .enable)

/-- A sequence of carrier activations (from finalize or resume) threaded
through the static api pointer state. -/
def carrierRun : Nat → Bool → Bool → List CarrierCall
  | 0, _, _ => []
  | n + 1, devPresent, api_set =>
    let r := set_ppp_carrier_on devPresent api_set
    r.2 :: carrierRun n devPresent r.1

/-- After the first activation with the device present, the api pointer
stays set and every activation calls the enable primitive. -/
theorem carrierRun_enable (n : Nat) :
    carrierRun n true true = List.replicate n .enable := by
  induction n with
  | zero => rfl
  | succ m ih => simp [carrierRun, set_ppp_carrier_on, ih, List.replicate_succ]

/-- Claim C8: across the process lifetime (the api pointer starts NULL
and the PPP device is present), the first carrier activation invokes the
start primitive and every subsequent activation invokes the enable
primitive. -/
theorem set_ppp_carrier_on_start_then_enable (n : Nat) :
    carrierRun (n + 1) true false = .start :: List.replicate n .enable := by
  simp [carrierRun, set_ppp_carrier_on, carrierRun_enable]

/-- Embedding of on_cmd_atcmdinfo_imei (gsm_ppp.c lines 270-280):
net_buf_linearize copies at most sizeof(mdm_imei) - 1 = 15 bytes of the
received reply into the IMEI field and the handler writes the NUL
terminator at the copied length, so the stored text is the reply
truncated to 15 characters. -/
def on_cmd_atcmdinfo_imei (rx : List Char) : List Char :=
  rx.take (MDM_IMEI_LENGTH - 1)

/-- The static minfo struct is zero initialized, so the IMEI field holds
the empty string before any reply arrives. -/
def mdm_imei_init : List Char := []

/-- The IMEI field after a sequence of IMEI replies has been handled:
each reply overwrites the field through the handler. -/
def mdm_imei_after (replies : List (List Char)) : List Char :=
  replies.foldl (fun _ rx => on_cmd_atcmdinfo_imei rx) mdm_imei_init

/-- Embedding of gsm_imei (gsm_ppp.c lines 190-193): returns the current
contents of minfo.mdm_imei. -/
def gsm_imei (imei : List Char) : List Char := imei

/-- Claim C10: at every point of the process lifetime, gsm_imei returns
a (NUL-terminated, in the C representation) string of at most 15
characters: the field starts as the empty string and after any sequence
of handled IMEI replies, each reply truncated to 15 characters by the
handler, the returned text never exceeds 15 characters. -/
theorem gsm_imei_bounded (replies : List (List Char)) :
    gsm_imei (mdm_imei_after []) = [] ∧
    (gsm_imei (mdm_imei_after replies)).length ≤ 15 := by
  constructor
  · rfl
  · rcases replies.eq_nil_or_concat with h | ⟨rs, r, h⟩
    · simp [h, gsm_imei, mdm_imei_after, mdm_imei_init]
    · subst h
      simp [gsm_imei, mdm_imei_after, on_cmd_atcmdinfo_imei,
        MDM_IMEI_LENGTH, List.foldl_concat]
